import Mathlib

/-!
MatlabHelper: marshalling between MATLAB arrays, GDI bitmaps and the MATLAB engine.

A shallow embedding of `MatlabHelper.cpp`.

* C++ `int` values are integers reduced with `wrap32` after every arithmetic
  operation; pointer arithmetic is exact.
* A pointer is an `Option`: `none` is `NULL`.  Reading through `NULL`, or
  outside a buffer, ends the run with a `Fault`; so does a C++ exception.
* `MoveRgbMxArrayData` works on array objects in an `ArrayStore`, addressed by
  pointers, so that one object can be passed twice.
* The MATLAB engine is an oracle (`Engine`) answering each call from the list
  of calls issued so far; the calls issued and the buffers released are logged
  in a `World` that is passed through every operation.
-/

namespace BlockDetection

/-! ## Machine integers and result codes -/

/-- Two's-complement reduction of an integer to the range of a 32-bit `int`. -/
def wrap32 (x : Int) : Int := (x + 2147483648) % 4294967296 - 2147483648

/-- Windows `HRESULT`: a signed 32-bit code, negative on failure. -/
abbrev HRESULT := Int

def S_OK : HRESULT := 0
def E_POINTER : HRESULT := wrap32 0x80004003
def E_FAIL : HRESULT := wrap32 0x80004005
def E_INVALIDARG : HRESULT := wrap32 0x80070057
def E_OUTOFMEMORY : HRESULT := wrap32 0x8007000E
/-- The code `HRESULT_FROM_WIN32(ERROR_INVALID_STATE)`, also named `E_NOT_VALID_STATE`. -/
def E_NOT_VALID_STATE : HRESULT := wrap32 0x8007139F
/-- The code `HRESULT_FROM_WIN32(ERROR_NOT_FOUND)`, also named `E_NOT_SET`. -/
def E_NOT_SET : HRESULT := wrap32 0x80070490

/-- The `FAILED(hr)` test of the Windows headers. -/
def FAILED (hr : HRESULT) : Bool := decide (hr < 0)

/-- Modelled from the spec: `MatlabHelper.h`, which declares `RGB_DIMENSIONS`, is
not among the sources; the spec fixes the dimension count of an image at
exactly 3. -/
def RGB_DIMENSIONS : Nat := 3

/-- Modelled from the spec: `MatlabHelper.h`, which declares `PIXEL_BYTE_SIZE`, is
not among the sources; the spec fixes the bitmap layout at 4 bytes per pixel. -/
def PIXEL_BYTE_SIZE : Int := 4

/-! ## Faults and pointers -/

/-- Ways in which a run can leave defined behaviour. -/
inductive Fault
  | nullDereference
  | outOfBounds
  | badAlloc
  deriving DecidableEq, Repr

deriving instance DecidableEq for Except

/-- Read through a pointer. -/
def deref {α : Type} (p : Option α) : Except Fault α :=
  match p with
  | some a => pure a
  | none => throw Fault.nullDereference

/-! ## MATLAB arrays (the part of the C Matrix API the helper uses) -/

/-- Element classes of the C Matrix API. -/
inductive mxClassID
  | mxUNKNOWN_CLASS | mxCELL_CLASS | mxSTRUCT_CLASS | mxLOGICAL_CLASS
  | mxCHAR_CLASS | mxVOID_CLASS | mxDOUBLE_CLASS | mxSINGLE_CLASS
  | mxINT8_CLASS | mxUINT8_CLASS | mxINT16_CLASS | mxUINT16_CLASS
  | mxINT32_CLASS | mxUINT32_CLASS | mxINT64_CLASS | mxUINT64_CLASS
  | mxFUNCTION_CLASS
  deriving DecidableEq, Repr

/-- A block of bytes on the MATLAB heap, identified by its address. -/
structure Buffer where
  addr : Nat
  bytes : List Nat
  deriving DecidableEq, Repr

/-- An `mxArray` header: element class, extents, and the data pointer. -/
structure mxArray where
  classID : mxClassID
  dims : List Nat
  data : Option Buffer
  deriving DecidableEq, Repr

/-- Library function `mxGetNumberOfDimensions`. -/
def mxGetNumberOfDimensions (a : mxArray) : Nat := a.dims.length

/-- Library function `mxIsEmpty`: the array has no element, that is, some extent is zero. -/
def mxIsEmpty (a : mxArray) : Bool := a.dims.any (fun d => d == 0)

/-- Library function `mxIsUint8`. -/
def mxIsUint8 (a : mxArray) : Bool := a.classID == mxClassID.mxUINT8_CLASS

/-- Library function `mxGetElementSize`: bytes per element; the size of a pointer for cell and
structure arrays, 0 for a class without elements. -/
def mxGetElementSize (a : mxArray) : Nat :=
  match a.classID with
  | .mxLOGICAL_CLASS | .mxINT8_CLASS | .mxUINT8_CLASS => 1
  | .mxCHAR_CLASS | .mxINT16_CLASS | .mxUINT16_CLASS => 2
  | .mxSINGLE_CLASS | .mxINT32_CLASS | .mxUINT32_CLASS => 4
  | .mxDOUBLE_CLASS | .mxINT64_CLASS | .mxUINT64_CLASS => 8
  | .mxCELL_CLASS | .mxSTRUCT_CLASS => 8
  | .mxUNKNOWN_CLASS | .mxVOID_CLASS | .mxFUNCTION_CLASS => 0

/-- The read `dimensions[i]` of the array that `mxGetDimensions` returns. -/
def readExtent (dims : List Nat) (i : Nat) : Except Fault Nat :=
  match dims[i]? with
  | some d => pure d
  | none => throw Fault.outOfBounds

/-- The read `*(p + off)` of one byte. -/
def readByte (p : Option Buffer) (off : Int) : Except Fault Nat := do
  let buf ← deref p
  if 0 ≤ off then
    match buf.bytes[off.toNat]? with
    | some b => pure b
    | none => throw Fault.outOfBounds
  else throw Fault.outOfBounds

/-- The write `*(bits + off) = v` of one byte into a block of `bits.length` bytes. -/
def writeByte (bits : List Nat) (off : Int) (v : Nat) : Except Fault (List Nat) :=
  if 0 ≤ off ∧ off.toNat < bits.length then pure (bits.set off.toNat v)
  else throw Fault.outOfBounds

/-- What the allocator answers to a request: a block whose initial content
`fresh` is arbitrary, `NULL` (a non-throwing `operator new`, the outcome the
source tests for), or the exception `std::bad_alloc`. -/
inductive Allocation
  | block (fresh : Nat → Nat)
  | null
  | badAlloc

/-- The expression `new BYTE[n]` for an `int` count `n`.  With a negative count
the expression throws; otherwise the allocator `heap` decides, from the number
of bytes asked for. -/
def operatorNew (n : Int) (heap : Nat → Allocation) : Except Fault (Option (List Nat)) :=
  if n < 0 then throw Fault.badAlloc
  else
    match heap n.toNat with
    | Allocation.block fresh => pure (some ((List.range n.toNat).map fresh))
    | Allocation.null => pure none
    | Allocation.badAlloc => throw Fault.badAlloc

/-! ## Validation -/

/-- Member function `MatlabHelper::ValidateMxArrayRgbImage`.  The pointer test only assigns
`hr`; the shape test that follows reads through `pImg` unconditionally. -/
def ValidateMxArrayRgbImage (pImg : Option mxArray) : Except Fault HRESULT := do
  let hr := if pImg.isNone then E_POINTER else S_OK
  let img ← deref pImg
  let hr :=
    if mxIsEmpty img || !mxIsUint8 img || mxGetNumberOfDimensions img != RGB_DIMENSIONS
    then E_INVALIDARG else hr
  pure hr

/-! ## Conversion to a GDI bitmap -/

/-- The fields of `BITMAPINFOHEADER` that the helper reads (both `LONG`). -/
structure BITMAPINFOHEADER where
  biWidth : Int
  biHeight : Int
  deriving DecidableEq, Repr

structure BITMAPINFO where
  bmiHeader : BITMAPINFOHEADER
  deriving DecidableEq, Repr

/-- What `ConvertRgbMxArrayToBitmap` leaves behind: the code returned and the
content of the output slot `*bitmapBits` (`none` when there is no slot). -/
structure ConvertResult where
  hr : HRESULT
  bitmapBits : Option (Option (List Nat))
  deriving DecidableEq, Repr

/-- Body of the inner loop for the pixel in row `y`, column `x`. -/
def convertPixel (matlabData : Option Buffer) (height width y x : Int)
    (bits : List Nat) : Except Fault (List Nat) := do
  let pixel := wrap32 (wrap32 (x + wrap32 (y * width)) * PIXEL_BYTE_SIZE)
  let blue ← readByte matlabData
    (y + wrap32 (x * height) + wrap32 (wrap32 (2 * width) * height))
  let bits ← writeByte bits pixel blue
  let green ← readByte matlabData (y + wrap32 (x * height) + wrap32 (width * height))
  let bits ← writeByte bits (pixel + 1) green
  let red ← readByte matlabData (y + wrap32 (x * height))
  let bits ← writeByte bits (pixel + 2) red
  writeByte bits (pixel + 3) 0

/-- The first `n` iterations (`x = 0, ..., n - 1`) of the inner loop
`for (int x = 0; x < width; x += 1)` in row `y`. -/
def convertRow (matlabData : Option Buffer) (height width y : Int) :
    Nat → List Nat → Except Fault (List Nat)
  | 0, bits => pure bits
  | n + 1, bits => do
    let bits ← convertRow matlabData height width y n bits
    convertPixel matlabData height width y n bits

/-- The first `n` iterations (`y = 0, ..., n - 1`) of the outer loop
`for (int y = 0; y < height; y += 1)`; each runs the whole inner loop. -/
def convertRows (matlabData : Option Buffer) (height width : Int) :
    Nat → List Nat → Except Fault (List Nat)
  | 0, bits => pure bits
  | n + 1, bits => do
    let bits ← convertRows matlabData height width n bits
    convertRow matlabData height width n width.toNat bits

/-- Member function `MatlabHelper::ConvertRgbMxArrayToBitmap`.  `bitmapBits` is
the output slot with its previous content, `heap` the allocator. -/
def ConvertRgbMxArrayToBitmap (pImg : Option mxArray)
    (bitmapBits : Option (Option (List Nat))) (pBitmapInfo : Option BITMAPINFO)
    (heap : Nat → Allocation) : Except Fault ConvertResult :=
  match bitmapBits with
  | none => pure ⟨E_POINTER, none⟩
  | some slot => do
    let hr ← ValidateMxArrayRgbImage pImg
    if FAILED hr then pure ⟨hr, some slot⟩ else
    let img ← deref pImg
    let height := wrap32 (← readExtent img.dims 0)
    let width := wrap32 (← readExtent img.dims 1)
    let info ← deref pBitmapInfo
    if height != wrap32 (- info.bmiHeader.biHeight) || width != info.bmiHeader.biWidth then
      pure ⟨E_INVALIDARG, some slot⟩
    else
    let allocated ← operatorNew (wrap32 (wrap32 (height * width) * PIXEL_BYTE_SIZE)) heap
    match allocated with
    | none => pure ⟨E_OUTOFMEMORY, some none⟩
    | some bits => do
      let bits ← convertRows img.data height width height.toNat bits
      pure ⟨S_OK, some (some bits)⟩

/-! ## The world outside the helper -/

/-- A call into the MATLAB engine library, with its arguments (`ep` is the
`Engine*` passed, `none` for `NULL`). -/
inductive EngCall
  | engOpen
  | engSetVisible (ep : Option Nat) (visible : Bool)
  | engClose (ep : Option Nat)
  | engPutVariable (ep : Option Nat) (name : String) (pm : mxArray)
  | engGetVariable (ep : Option Nat) (name : String)
  | engEvalString (ep : Option Nat) (expr : String)
  deriving DecidableEq, Repr

/-- The engine as an oracle.  Each answer is a function of the calls issued so
far, the one being answered last: the handle `engOpen` returns, the `int`
that `engSetVisible`, `engPutVariable` and `engEvalString` return, and the
array `engGetVariable` returns. -/
structure Engine where
  handle : List EngCall → Option Nat
  retCode : List EngCall → Int
  fetched : List EngCall → Option mxArray

/-- Effects visible outside the helper, oldest first: the engine calls issued,
the addresses of the data blocks released, the array headers destroyed. -/
structure World where
  calls : List EngCall
  released : List Nat
  destroyed : List mxArray
  deriving DecidableEq, Repr

/-- Log one engine call. -/
def World.call (w : World) (c : EngCall) : World :=
  { w with calls := w.calls ++ [c] }

/-- Library function `mxFree`: releases the block; does nothing for `NULL`. -/
def mxFree (p : Option Buffer) (w : World) : World :=
  match p with
  | none => w
  | some buf => { w with released := w.released ++ [buf.addr] }

/-- Library function `mxDestroyArray`: releases the data block of the array, then its header;
does nothing for `NULL`. -/
def mxDestroyArray (pa : Option mxArray) (w : World) : World :=
  match pa with
  | none => w
  | some a =>
    let w := mxFree a.data w
    { w with destroyed := w.destroyed ++ [a] }

/-! ## Moving a data block between arrays -/

/-- The array objects in memory: the header found at each address (`none`
where there is no array). -/
abbrev ArrayStore := Nat → Option mxArray

/-- Library function `mxSetData`: stores a data pointer in the header at `p`. -/
def mxSetData (mem : ArrayStore) (p : Nat) (data : Option Buffer) : ArrayStore :=
  fun q => if q = p then (mem p).map (fun a => { a with data := data }) else mem q

/-- Outcome of `MoveRgbMxArrayData`: the code returned, the array objects after
the call, and the world. -/
structure MoveResult where
  hr : HRESULT
  arrays : ArrayStore
  world : World

/-- Member function `MatlabHelper::MoveRgbMxArrayData`.  Both arguments are
pointers to array objects in `mem`; they may be the same; reading through an
address that holds no array is a fault like reading through `NULL`.  The six `mxGet...`
calls read through both pointers first; the extents are compared only after
both dimension counts were found to be 3 (the `||` chain stops at the first
true operand).  No header changes before the two `mxSetData` calls, so
`mxGetData` returns the data pointers found at the start; the second
`mxSetData` acts on the headers as the first left them. -/
def MoveRgbMxArrayData (pSourceImg pDestImg : Option Nat) (mem : ArrayStore) (w : World) :
    Except Fault MoveResult :=
  match pSourceImg, pDestImg with
  | some ps, some pd => do
    let src ← deref (mem ps)
    let dst ← deref (mem pd)
    let sourceElementSize := mxGetElementSize src
    let numSourceDimensions := mxGetNumberOfDimensions src
    let sourceDimensions := src.dims
    let destElementSize := mxGetElementSize dst
    let numDestDimensions := mxGetNumberOfDimensions dst
    let destDimensions := dst.dims
    if sourceElementSize != destElementSize || numSourceDimensions != 3
        || numSourceDimensions != numDestDimensions
        || sourceDimensions[0]? != destDimensions[0]?
        || sourceDimensions[1]? != destDimensions[1]?
        || sourceDimensions[2]? != destDimensions[2]? then
      pure ⟨E_INVALIDARG, mem, w⟩
    else
      let pDestImgData := dst.data
      let w := mxFree pDestImgData w
      let pSourceImgData := src.data
      let mem := mxSetData mem pd pSourceImgData
      let mem := mxSetData mem ps none
      pure ⟨S_OK, mem, w⟩
  | _, _ => throw Fault.nullDereference

/-! ## The helper object and the engine session -/

/-- Data members of `MatlabHelper`. -/
structure MatlabHelper where
  m_depthFilterID : Int
  m_colorFilterID : Int
  m_matlabEngine : Option Nat
  deriving DecidableEq, Repr

/-- Constructor `MatlabHelper::MatlabHelper()`.  The value of `NO_FILTER` is
declared in a header that is not among the sources; it is a parameter. -/
def MatlabHelper.ctor (NO_FILTER : Int) : MatlabHelper :=
  { m_depthFilterID := NO_FILTER, m_colorFilterID := NO_FILTER, m_matlabEngine := none }

/-- Member function `MatlabHelper::ShutDownEngine`. -/
def MatlabHelper.ShutDownEngine (self : MatlabHelper) (w : World) : MatlabHelper × World :=
  if self.m_matlabEngine.isSome then
    (self, w.call (EngCall.engClose self.m_matlabEngine))
  else
    (self, w)

/-- Member function `MatlabHelper::InitMatlabEngine`. -/
def MatlabHelper.InitMatlabEngine (self : MatlabHelper) (eng : Engine) (engineUIVisible : Bool)
    (w : World) : HRESULT × MatlabHelper × World :=
  let w := w.call EngCall.engOpen
  let self := { self with m_matlabEngine := eng.handle w.calls }
  if self.m_matlabEngine.isNone then
    (E_NOT_VALID_STATE, self, w)
  else
    let w := w.call (EngCall.engSetVisible self.m_matlabEngine engineUIVisible)
    let result := eng.retCode w.calls
    if result != 0 then (E_NOT_VALID_STATE, self, w) else (S_OK, self, w)

/-- Member function `MatlabHelper::SetColorFilter`. -/
def MatlabHelper.SetColorFilter (self : MatlabHelper) (filterID : Int) : MatlabHelper :=
  { self with m_colorFilterID := filterID }

/-- Member function `MatlabHelper::SetDepthFilter`. -/
def MatlabHelper.SetDepthFilter (self : MatlabHelper) (filterID : Int) : MatlabHelper :=
  { self with m_depthFilterID := filterID }

/-- Member function `MatlabHelper::ConvertMatlabRetCodeToHResult`. -/
def ConvertMatlabRetCodeToHResult (retCode : Int) : HRESULT :=
  if retCode == 0 then S_OK else E_FAIL

/-- Outcome of `MatlabPutVariable` and of `MatlabEvalExpr`. -/
structure EngineResult where
  hr : HRESULT
  world : World
  deriving DecidableEq, Repr

/-- Outcome of `MatlabGetVariable`; `ppVariable` is the content of the slot
`*ppVariable` after the call (`none` when there is no slot). -/
structure GetResult where
  hr : HRESULT
  ppVariable : Option (Option mxArray)
  world : World
  deriving DecidableEq, Repr

/-- Member function `MatlabHelper::MatlabPutVariable`. -/
def MatlabHelper.MatlabPutVariable (self : MatlabHelper) (eng : Engine)
    (name : Option String) (pVariable : Option mxArray) (w : World) : EngineResult :=
  match name, pVariable with
  | some n, some v =>
    let w := w.call (EngCall.engPutVariable self.m_matlabEngine n v)
    let retCode := eng.retCode w.calls
    ⟨ConvertMatlabRetCodeToHResult retCode, w⟩
  | _, _ => ⟨E_POINTER, w⟩

/-- Member function `MatlabHelper::MatlabGetVariable`. -/
def MatlabHelper.MatlabGetVariable (self : MatlabHelper) (eng : Engine)
    (name : Option String) (ppVariable : Option (Option mxArray)) (w : World) : GetResult :=
  match name, ppVariable with
  | some n, some slot =>
    let w := w.call (EngCall.engGetVariable self.m_matlabEngine n)
    match eng.fetched w.calls with
    | none => ⟨E_NOT_SET, some slot, w⟩
    | some pVar => ⟨S_OK, some (some pVar), w⟩
  | _, _ => ⟨E_POINTER, ppVariable, w⟩

/-- Member function `MatlabHelper::MatlabEvalExpr`. -/
def MatlabHelper.MatlabEvalExpr (self : MatlabHelper) (eng : Engine)
    (expr : Option String) (w : World) : EngineResult :=
  match expr with
  | none => ⟨E_POINTER, w⟩
  | some e =>
    let w := w.call (EngCall.engEvalString self.m_matlabEngine e)
    let retCode := eng.retCode w.calls
    ⟨ConvertMatlabRetCodeToHResult retCode, w⟩

/-! ## The centroid pipeline

The MATLAB expressions are those of the source with the line continuations
joined and the white space between statements reduced to one blank. -/

def c_removeBackgroundExpr : String :=
  "grayscale_img = rgb2gray(img); threshold = graythresh(grayscale_img); only_background_mask = imbinarize(grayscale_img, threshold); not_background_mask = ~only_background_mask; no_background_img = img.*repmat(uint8(not_background_mask), [1, 1, 3]);"

def c_findTableExpr : String :=
  "only_background_mask = imfill(only_background_mask, \x27holes\x27); background_regions = regionprops(only_background_mask, grayscale_img, \x7b \x27Area\x27, \x27Centroid\x27, \x27PixelIdxList\x27 \x7d); [max_area, max_id] = max([background_regions.Area]); max_region_pixels = background_regions(max_id).PixelIdxList;"

def c_restrictToTableExpr : String :=
  "table_mask = zeros(size(only_background_mask)); table_mask(max_region_pixels) = 1; table_mask = imerode(table_mask, strel(\x27cube\x27, 10)); only_table_img = no_background_img.*repmat(uint8(table_mask), [1, 1, 3]); no_table_background_mask = table_mask & not_background_mask;"

def c_findCentroidsExpr : String :=
  "objects = regionprops(no_table_background_mask,grayscale_img,\x7b\x27Area\x27, \x27Centroid\x27\x7d); allCentroids = arrayfun(@(n) n > 60, [objects.Area]); validCentroidIdx = find(allCentroids == 1); numValidCentroids = length(validCentroidIdx); unformattedCentroids = [objects(validCentroidIdx).Centroid]; finalCentroids = transpose(reshape(unformattedCentroids, [2, numValidCentroids]));"

def c_addCentroidsExpr : String :=
  "filteredImg = img; for i=1:numValidCentroids currX = finalCentroids(i, 1); currY = finalCentroids(i, 2); filteredImg = insertShape(filteredImg, \x27circle\x27, [currX currY 20], \x27LineWidth\x27, 10, \x27Color\x27, \x27green\x27); end"

/-- Outcome of a filter: the code returned, the caller's array after the call,
and the world. -/
structure FilterResult where
  hr : HRESULT
  img : Option mxArray
  world : World
  deriving DecidableEq, Repr

/-- Address of the caller's array during the move at the end of a filter. -/
def callerAddr : Nat := 0

/-- Address of the array fetched from the engine during that move. -/
def fetchedAddr : Nat := 1

/-- The two array objects of a filter laid out in memory: the caller's array and
the array fetched from the engine, which `engGetVariable` allocates anew, so
that the two are different objects. -/
def pairStore (pImg pFilteredImage : Option mxArray) : ArrayStore :=
  fun q => if q = callerAddr then pImg else if q = fetchedAddr then pFilteredImage else none

/-- Member function `MatlabHelper::ComputeCentroids`.  The `centroids` vector is
passed by value and never written.  The locals `pFilteredImage` and
`pCentroids` start out as slots holding no array. -/
def MatlabHelper.ComputeCentroids (self : MatlabHelper) (eng : Engine)
    (pImg : Option mxArray) (w : World) : Except Fault FilterResult :=
  let r := self.MatlabPutVariable eng (some "img") pImg w
  if FAILED r.hr then pure ⟨r.hr, pImg, r.world⟩ else
  let r := self.MatlabEvalExpr eng (some c_removeBackgroundExpr) r.world
  if FAILED r.hr then pure ⟨r.hr, pImg, r.world⟩ else
  let r := self.MatlabEvalExpr eng (some c_findTableExpr) r.world
  if FAILED r.hr then pure ⟨r.hr, pImg, r.world⟩ else
  let r := self.MatlabEvalExpr eng (some c_restrictToTableExpr) r.world
  if FAILED r.hr then pure ⟨r.hr, pImg, r.world⟩ else
  let r := self.MatlabEvalExpr eng (some c_findCentroidsExpr) r.world
  if FAILED r.hr then pure ⟨r.hr, pImg, r.world⟩ else
  let r := self.MatlabEvalExpr eng (some c_addCentroidsExpr) r.world
  if FAILED r.hr then pure ⟨r.hr, pImg, r.world⟩ else
  let g := self.MatlabGetVariable eng (some "filteredImg") (some none) r.world
  if FAILED g.hr then pure ⟨g.hr, pImg, g.world⟩ else
  let pFilteredImage := g.ppVariable.join
  let g := self.MatlabGetVariable eng (some "finalCentroids") (some none) g.world
  if FAILED g.hr then pure ⟨g.hr, pImg, g.world⟩ else do
  let m ← MoveRgbMxArrayData (pFilteredImage.map (fun _ => fetchedAddr))
    (pImg.map (fun _ => callerAddr)) (pairStore pImg pFilteredImage) g.world
  let w := mxDestroyArray (m.arrays fetchedAddr) m.world
  pure ⟨m.hr, m.arrays callerAddr, w⟩

/-- Member function `MatlabHelper::ApplyColorFilter`.  The value of
`IDM_COLOR_GRAYSCALE_THRESHOLD` is declared in a header that is not among the
sources; it is a parameter. -/
def MatlabHelper.ApplyColorFilter (self : MatlabHelper) (eng : Engine)
    (IDM_COLOR_GRAYSCALE_THRESHOLD : Int) (pImg : Option mxArray) (w : World) :
    Except Fault FilterResult :=
  if self.m_matlabEngine.isNone then pure ⟨E_NOT_VALID_STATE, pImg, w⟩ else do
  let hr ← ValidateMxArrayRgbImage pImg
  if FAILED hr then pure ⟨hr, pImg, w⟩ else
  if self.m_colorFilterID == IDM_COLOR_GRAYSCALE_THRESHOLD then
    self.ComputeCentroids eng pImg w
  else
    pure ⟨hr, pImg, w⟩

/-! ## Vocabulary for the conversion loop -/

/-- The block `bits` after the four writes of the inner loop body for pixel
number `p`. -/
def writePixel (bits : List Nat) (p b g r : Nat) : List Nat :=
  (((bits.set (p * 4) b).set (p * 4 + 1) g).set (p * 4 + 2) r).set (p * 4 + 3) 0

/-- Pixel `(x, y)` of `bits` holds blue, green, red of the source pixel and a
zero byte. -/
def PixelDone (buf : Buffer) (h w : Nat) (bits : List Nat) (y x : Nat) : Prop :=
  ∃ r g b, buf.bytes[y + x * h]? = some r ∧ buf.bytes[y + x * h + w * h]? = some g ∧
    buf.bytes[y + x * h + 2 * w * h]? = some b ∧
    bits[(x + y * w) * 4]? = some b ∧ bits[(x + y * w) * 4 + 1]? = some g ∧
    bits[(x + y * w) * 4 + 2]? = some r ∧ bits[(x + y * w) * 4 + 3]? = some 0

/-! ## Vocabulary for the centroid pipeline -/

/-- The engine calls of the centroid pipeline in their fixed order: put `img`,
five evaluations, fetch `filteredImg`, fetch `finalCentroids`. -/
def centroidCalls (ep : Option Nat) (img : mxArray) : List EngCall :=
  [EngCall.engPutVariable ep "img" img,
   EngCall.engEvalString ep c_removeBackgroundExpr,
   EngCall.engEvalString ep c_findTableExpr,
   EngCall.engEvalString ep c_restrictToTableExpr,
   EngCall.engEvalString ep c_findCentroidsExpr,
   EngCall.engEvalString ep c_addCentroidsExpr,
   EngCall.engGetVariable ep "filteredImg",
   EngCall.engGetVariable ep "finalCentroids"]

/-- The result code of the engine call `c` issued after the calls `past`: for a
fetch, `E_NOT_SET` when the engine returns no array; otherwise the engine's
return code as translated by `ConvertMatlabRetCodeToHResult`. -/
def engineStepCode (eng : Engine) (past : List EngCall) (c : EngCall) : HRESULT :=
  match c with
  | EngCall.engGetVariable _ _ => if (eng.fetched (past ++ [c])).isSome then S_OK else E_NOT_SET
  | _ => ConvertMatlabRetCodeToHResult (eng.retCode (past ++ [c]))

/-- The result code of step `k` (counted from 0) of the centroid pipeline when
the steps before it have been issued after `past`. -/
def centroidStepCode (eng : Engine) (ep : Option Nat) (img : mxArray)
    (past : List EngCall) (k : Nat) : HRESULT :=
  match (centroidCalls ep img)[k]? with
  | some c => engineStepCode eng (past ++ (centroidCalls ep img).take k) c
  | none => S_OK

/-- A chain of `n` guarded steps starting at step `k`: the first step whose code
fails ends the run with the result `res` of that step; when none fails the
run continues with `final`. -/
def failFast (code : Nat → HRESULT) (res : Nat → FilterResult)
    (final : Except Fault FilterResult) : Nat → Nat → Except Fault FilterResult
  | 0, _ => final
  | n + 1, k => if FAILED (code k) = true then pure (res k) else failFast code res final n (k + 1)

/-! ## Concrete inputs -/

/-- The 2x2 image with R = [[1,2],[3,4]], G = [[5,6],[7,8]], B = [[9,10],[11,12]],
stored plane by plane, each plane column by column. -/
def rgb2x2 : mxArray :=
  ⟨.mxUINT8_CLASS, [2, 2, 3], some ⟨4096, [1, 3, 2, 4, 5, 7, 6, 8, 9, 11, 10, 12]⟩⟩

/-- A top-down bitmap header for a 2x2 image. -/
def header2x2 : BITMAPINFO := ⟨⟨2, -2⟩⟩

/-- A 2x2x3 array of doubles. -/
def double2x2 : mxArray := ⟨.mxDOUBLE_CLASS, [2, 2, 3], some ⟨8192, []⟩⟩

/-- A 2x2 matrix of bytes (two dimensions). -/
def gray2x2 : mxArray := ⟨.mxUINT8_CLASS, [2, 2], some ⟨12288, [1, 2, 3, 4]⟩⟩

/-- A second 2x2 colour image, at another address. -/
def other2x2 : mxArray :=
  ⟨.mxUINT8_CLASS, [2, 2, 3], some ⟨20480, [0, 0, 0, 0, 0, 0, 0, 0, 0, 0, 0, 0]⟩⟩

/-- A 1x1 array of bytes with two planes only. -/
def twoPlanes : mxArray := ⟨.mxUINT8_CLASS, [1, 1, 2], some ⟨16384, [7, 8]⟩⟩

/-- A 32768 x 16384 colour image (1.5 GiB of bytes). -/
def hugeImage : mxArray :=
  ⟨.mxUINT8_CLASS, [32768, 16384, 3], some ⟨65536, List.replicate (32768 * 16384 * 3) 0⟩⟩

/-- A memory holding one array object, the 2x2 colour image, at address 7. -/
def oneArray : ArrayStore := fun q => if q = 7 then some rgb2x2 else none

/-- A memory holding three array objects: the 2x2 colour image at address 1, the
second colour image at address 2, the two-dimensional matrix at address 3. -/
def threeArrays : ArrayStore :=
  fun q => if q = 1 then some rgb2x2 else if q = 2 then some other2x2
    else if q = 3 then some gray2x2 else none

/-- An allocator that grants every request, with zeroed blocks. -/
def plentifulHeap : Nat → Allocation := fun _ => Allocation.block (fun _ => 0)

/-- An allocator that answers every request with `NULL`. -/
def exhaustedHeap : Nat → Allocation := fun _ => Allocation.null

/-- The world before anything happened. -/
def World.initial : World := ⟨[], [], []⟩

/-- An engine that starts, hands out handle 1 and accepts every request. -/
def willingEngine : Engine := ⟨fun _ => some 1, fun _ => 0, fun _ => some other2x2⟩

/-- An engine that reports an error for every request, as the engine library
does for a `NULL` handle. -/
def refusingEngine : Engine := ⟨fun _ => none, fun _ => 1, fun _ => none⟩

/-- An engine that starts and accepts every request but the third after that. -/
def thirdCallFails : Engine :=
  ⟨fun _ => some 1, fun calls => if calls.length = 3 then 1 else 0, fun _ => some other2x2⟩

/-- A helper on which `InitMatlabEngine` succeeded, with another depth filter set. -/
def startedHelper : MatlabHelper :=
  (((MatlabHelper.ctor 0).InitMatlabEngine willingEngine false World.initial).2.1).SetDepthFilter 7

/-! ## Validation -/

/-- C2: for a present array, validation returns `S_OK` when the array is
non-empty, of class uint8 and has exactly 3 dimensions, and the failure code
`E_INVALIDARG` when it is empty, or not uint8, or has another number of
dimensions. -/
theorem ValidateMxArrayRgbImage_present (a : mxArray) :
    ((mxIsEmpty a = false ∧ mxIsUint8 a = true ∧ mxGetNumberOfDimensions a = 3) →
      ValidateMxArrayRgbImage (some a) = .ok S_OK) ∧
    ((mxIsEmpty a = true ∨ mxIsUint8 a = false ∨ mxGetNumberOfDimensions a ≠ 3) →
      ValidateMxArrayRgbImage (some a) = .ok E_INVALIDARG) ∧
    FAILED S_OK = false ∧ FAILED E_INVALIDARG = true := by
  refine ⟨?_, ?_, by decide, by decide⟩
  · rintro ⟨h1, h2, h3⟩
    simp [ValidateMxArrayRgbImage, deref, h1, h2, h3, RGB_DIMENSIONS, pure, Except.pure,
      bind, Except.bind]
  · intro h
    have hc : (mxIsEmpty a || !mxIsUint8 a ||
        mxGetNumberOfDimensions a != RGB_DIMENSIONS) = true := by
      rcases h with h | h | h <;> simp [h, RGB_DIMENSIONS]
    simp [ValidateMxArrayRgbImage, deref, hc, pure, Except.pure, bind, Except.bind]

/-- Instances of C2: the 2x2 colour image is accepted; an array of doubles, a
two-dimensional array and an empty array are rejected with `E_INVALIDARG`. -/
theorem ValidateMxArrayRgbImage_present_witness :
    ValidateMxArrayRgbImage (some rgb2x2) = .ok S_OK ∧
    ValidateMxArrayRgbImage (some double2x2) = .ok E_INVALIDARG ∧
    ValidateMxArrayRgbImage (some gray2x2) = .ok E_INVALIDARG ∧
    ValidateMxArrayRgbImage (some ⟨.mxUINT8_CLASS, [0, 2, 3], none⟩) = .ok E_INVALIDARG :=
  ⟨(ValidateMxArrayRgbImage_present rgb2x2).1 (by decide),
   (ValidateMxArrayRgbImage_present double2x2).2.1 (by decide),
   (ValidateMxArrayRgbImage_present gray2x2).2.1 (by decide),
   (ValidateMxArrayRgbImage_present _).2.1 (by decide)⟩

/-- C8: with a `NULL` array the pointer test assigns `E_POINTER`, but the shape
test that follows reads through the pointer all the same: the run ends in a
null dereference and `E_POINTER` is not returned. -/
theorem ValidateMxArrayRgbImage_null :
    ValidateMxArrayRgbImage none = .error Fault.nullDereference ∧
    ValidateMxArrayRgbImage none ≠ .ok E_POINTER := by
  decide

/-! ## Moving a data block -/

theorem mxSetData_same (mem : ArrayStore) (p : Nat) (data : Option Buffer) :
    mxSetData mem p data p = (mem p).map (fun a => { a with data := data }) := by
  simp [mxSetData]

theorem mxSetData_other (mem : ArrayStore) (p q : Nat) (data : Option Buffer) (h : q ≠ p) :
    mxSetData mem p data q = mem q := by
  simp [mxSetData, h]

theorem move_guard_false (src dst : mxArray)
    (hsize : mxGetElementSize src = mxGetElementSize dst)
    (hsrc : mxGetNumberOfDimensions src = 3) (hdst : mxGetNumberOfDimensions dst = 3)
    (hext : ∀ i, i < 3 → src.dims[i]? = dst.dims[i]?) :
    (mxGetElementSize src != mxGetElementSize dst
      || mxGetNumberOfDimensions src != 3
      || mxGetNumberOfDimensions src != mxGetNumberOfDimensions dst
      || src.dims[0]? != dst.dims[0]?
      || src.dims[1]? != dst.dims[1]?
      || src.dims[2]? != dst.dims[2]?) = false := by
  have h0 := hext 0 (by omega)
  have h1 := hext 1 (by omega)
  have h2 := hext 2 (by omega)
  simp [hsize, hsrc, hdst, h0, h1, h2]

theorem move_guard_true (src dst : mxArray)
    (h : ¬ (mxGetElementSize src = mxGetElementSize dst ∧
            mxGetNumberOfDimensions src = 3 ∧
            mxGetNumberOfDimensions src = mxGetNumberOfDimensions dst ∧
            ∀ i, i < 3 → src.dims[i]? = dst.dims[i]?)) :
    (mxGetElementSize src != mxGetElementSize dst
      || mxGetNumberOfDimensions src != 3
      || mxGetNumberOfDimensions src != mxGetNumberOfDimensions dst
      || src.dims[0]? != dst.dims[0]?
      || src.dims[1]? != dst.dims[1]?
      || src.dims[2]? != dst.dims[2]?) = true := by
  by_contra hne
  apply h
  simp only [Bool.or_eq_true, bne_iff_ne, ne_eq, not_or, not_not] at hne
  obtain ⟨⟨⟨⟨⟨a1, a2⟩, a3⟩, a4⟩, a5⟩, a6⟩ := hne
  refine ⟨a1, a2, a3, ?_⟩
  intro i hi
  interval_cases i
  · exact a4
  · exact a5
  · exact a6

theorem move_unfold (mem : ArrayStore) (ps pd : Nat) (src dst : mxArray) (w : World)
    (hps : mem ps = some src) (hpd : mem pd = some dst) :
    MoveRgbMxArrayData (some ps) (some pd) mem w
      = .ok (if (mxGetElementSize src != mxGetElementSize dst
              || mxGetNumberOfDimensions src != 3
              || mxGetNumberOfDimensions src != mxGetNumberOfDimensions dst
              || src.dims[0]? != dst.dims[0]?
              || src.dims[1]? != dst.dims[1]?
              || src.dims[2]? != dst.dims[2]?) = true
             then ⟨E_INVALIDARG, mem, w⟩
             else ⟨S_OK, mxSetData (mxSetData mem pd src.data) ps none, mxFree dst.data w⟩) := by
  unfold MoveRgbMxArrayData
  simp only [hps, hpd, deref, bind, Except.bind, pure, Except.pure]
  split <;> rfl

/-- C3, as stated, fails: the guard admits one array object passed as source and
as destination.  The call then returns `S_OK`, the block of the array is
released, and its data pointer ends up `NULL`, not at the source's former
block. -/
theorem MoveRgbMxArrayData_same_array :
    oneArray 7 = some rgb2x2 ∧
    (MoveRgbMxArrayData (some 7) (some 7) oneArray World.initial).map
        (fun r => (r.hr, r.arrays 7, r.world))
      = .ok (S_OK, some { rgb2x2 with data := none }, ⟨[], [4096], []⟩) ∧
    rgb2x2.data ≠ none := by
  decide

/-- C3, amended: for two different array objects whose element sizes agree, that
both have exactly 3 dimensions, and whose extents agree pairwise, the move
returns `S_OK`; afterwards the destination header points at the source's former
block, the source header points at nothing, class and extents of both are as
before, every other array object is untouched, and exactly one release was
issued, that of the destination's former block. -/
theorem MoveRgbMxArrayData_success (mem : ArrayStore) (ps pd : Nat) (src dst : mxArray)
    (w : World)
    (hps : mem ps = some src) (hpd : mem pd = some dst) (hne : ps ≠ pd)
    (hsize : mxGetElementSize src = mxGetElementSize dst)
    (hsrc : mxGetNumberOfDimensions src = 3) (hdst : mxGetNumberOfDimensions dst = 3)
    (hext : ∀ i, i < 3 → src.dims[i]? = dst.dims[i]?) :
    ∃ r, MoveRgbMxArrayData (some ps) (some pd) mem w = .ok r ∧
      r.hr = S_OK ∧
      r.arrays pd = some ⟨dst.classID, dst.dims, src.data⟩ ∧
      r.arrays ps = some ⟨src.classID, src.dims, none⟩ ∧
      (∀ q, q ≠ ps → q ≠ pd → r.arrays q = mem q) ∧
      r.world.released = w.released ++ (dst.data.toList.map Buffer.addr) ∧
      (∀ buf, dst.data = some buf →
        r.world.released.count buf.addr = w.released.count buf.addr + 1) ∧
      r.world.calls = w.calls ∧ r.world.destroyed = w.destroyed := by
  have hg := move_guard_false src dst hsize hsrc hdst hext
  refine ⟨⟨S_OK, mxSetData (mxSetData mem pd src.data) ps none, mxFree dst.data w⟩,
    ?_, rfl, ?_, ?_, ?_, ?_, ?_, ?_, ?_⟩
  · rw [move_unfold mem ps pd src dst w hps hpd, hg]
    rfl
  · show mxSetData (mxSetData mem pd src.data) ps none pd = _
    rw [mxSetData_other _ _ _ _ (Ne.symm hne), mxSetData_same, hpd]
    rfl
  · show mxSetData (mxSetData mem pd src.data) ps none ps = _
    rw [mxSetData_same, mxSetData_other _ _ _ _ hne, hps]
    rfl
  · intro q h1 h2
    show mxSetData (mxSetData mem pd src.data) ps none q = _
    rw [mxSetData_other _ _ _ _ h1, mxSetData_other _ _ _ _ h2]
  · cases hd : dst.data <;> simp [mxFree]
  · intro buf hbuf
    simp [mxFree, hbuf, List.count_append]
  · cases hd : dst.data <;> simp [mxFree]
  · cases hd : dst.data <;> simp [mxFree]

/-- Instance of the amended C3: moving the block of the colour image at address
1 into the colour image at address 2. -/
theorem MoveRgbMxArrayData_success_witness :
    ∃ r, MoveRgbMxArrayData (some 1) (some 2) threeArrays World.initial = .ok r ∧
      r.hr = S_OK ∧
      r.arrays 2 = some ⟨.mxUINT8_CLASS, [2, 2, 3], rgb2x2.data⟩ ∧
      r.arrays 1 = some ⟨.mxUINT8_CLASS, [2, 2, 3], none⟩ ∧
      r.arrays 3 = some gray2x2 ∧
      r.world.released = [20480] := by
  obtain ⟨r, h, h1, h2, h3, h4, h5, _⟩ :=
    MoveRgbMxArrayData_success threeArrays 1 2 rgb2x2 other2x2 World.initial rfl rfl
      (by decide) (by decide) (by decide) (by decide) (by decide)
  exact ⟨r, h, h1, h2, h3, h4 3 (by decide) (by decide), by rw [h5]; decide⟩

/-- C4: when the element sizes differ, or the source does not have exactly 3
dimensions, or the dimension counts differ, or some of the three extents
differ, the move returns the failure code `E_INVALIDARG` and every array object
and the world are as before: no pointer is changed and nothing is released.
This holds also when both pointers designate the same object. -/
theorem MoveRgbMxArrayData_mismatch (mem : ArrayStore) (ps pd : Nat) (src dst : mxArray)
    (w : World)
    (hps : mem ps = some src) (hpd : mem pd = some dst)
    (h : ¬ (mxGetElementSize src = mxGetElementSize dst ∧
            mxGetNumberOfDimensions src = 3 ∧
            mxGetNumberOfDimensions src = mxGetNumberOfDimensions dst ∧
            ∀ i, i < 3 → src.dims[i]? = dst.dims[i]?)) :
    MoveRgbMxArrayData (some ps) (some pd) mem w = .ok ⟨E_INVALIDARG, mem, w⟩ ∧
    FAILED E_INVALIDARG = true := by
  refine ⟨?_, by decide⟩
  rw [move_unfold mem ps pd src dst w hps hpd, move_guard_true src dst h]
  rfl

/-- Instance of C4: a 3-dimensional source and a 2-dimensional destination. -/
theorem MoveRgbMxArrayData_mismatch_witness :
    MoveRgbMxArrayData (some 1) (some 3) threeArrays World.initial
      = .ok ⟨E_INVALIDARG, threeArrays, World.initial⟩ :=
  (MoveRgbMxArrayData_mismatch threeArrays 1 3 rgb2x2 gray2x2 World.initial rfl rfl
    (by decide)).1

/-! ## Filter selection -/

/-- C6: with an engine handle held, a colour selector other than
`IDM_COLOR_GRAYSCALE_THRESHOLD` (whatever the depth selector) and an image
that validation accepts, `ApplyColorFilter` returns `S_OK` and leaves the image
and the world as they were: no engine call is issued. -/
theorem ApplyColorFilter_other_selector (self : MatlabHelper) (eng : Engine)
    (IDM_COLOR_GRAYSCALE_THRESHOLD : Int) (pImg : Option mxArray) (w : World)
    (hEngine : self.m_matlabEngine.isSome = true)
    (hSelector : self.m_colorFilterID ≠ IDM_COLOR_GRAYSCALE_THRESHOLD)
    (hValid : ValidateMxArrayRgbImage pImg = .ok S_OK) :
    self.ApplyColorFilter eng IDM_COLOR_GRAYSCALE_THRESHOLD pImg w = .ok ⟨S_OK, pImg, w⟩ := by
  have hne : self.m_matlabEngine.isNone = false := by
    cases he : self.m_matlabEngine <;> simp_all
  have hfail : FAILED S_OK = false := by decide
  simp [MatlabHelper.ApplyColorFilter, hne, hValid, hfail, hSelector, pure, Except.pure,
    bind, Except.bind]

/-- Instance of C6: a started helper whose colour selector is still the default
`NO_FILTER` (0 here, the threshold filter being 1) and whose depth selector
was changed. -/
theorem ApplyColorFilter_other_selector_witness :
    startedHelper.m_matlabEngine = some 1 ∧
    startedHelper.m_colorFilterID = (MatlabHelper.ctor 0).m_colorFilterID ∧
    startedHelper.ApplyColorFilter willingEngine 1 (some rgb2x2) World.initial
      = .ok ⟨S_OK, some rgb2x2, World.initial⟩ :=
  ⟨by decide, by decide,
   ApplyColorFilter_other_selector startedHelper willingEngine 1 (some rgb2x2) World.initial
     (by decide) (by decide) (by decide)⟩

/-! ## Engine session -/

/-- C7, as stated, fails: on a helper that was never started, each of the three
wrappers issues its engine call with the absent handle, and returns the code
derived from the engine's answer (`E_FAIL`, `E_NOT_SET`), not
`E_NOT_VALID_STATE`. -/
theorem engine_wrappers_before_start :
    (MatlabHelper.ctor 0).m_matlabEngine = none ∧
    (MatlabHelper.ctor 0).MatlabEvalExpr refusingEngine (some "x = 1;") World.initial
      = ⟨E_FAIL, ⟨[EngCall.engEvalString none "x = 1;"], [], []⟩⟩ ∧
    (MatlabHelper.ctor 0).MatlabPutVariable refusingEngine (some "img") (some rgb2x2)
        World.initial
      = ⟨E_FAIL, ⟨[EngCall.engPutVariable none "img" rgb2x2], [], []⟩⟩ ∧
    (MatlabHelper.ctor 0).MatlabGetVariable refusingEngine (some "img") (some none)
        World.initial
      = ⟨E_NOT_SET, some none, ⟨[EngCall.engGetVariable none "img"], [], []⟩⟩ ∧
    E_FAIL ≠ E_NOT_VALID_STATE ∧ E_NOT_SET ≠ E_NOT_VALID_STATE := by
  decide

/-- C7, amended: on a helper without an engine handle the three wrappers do not
test the handle.  Given present arguments, each issues exactly one engine call,
passing the absent handle, and returns the code derived from the engine's
answer: `S_OK` for return code 0 and `E_FAIL` otherwise; for a fetch, `E_NOT_SET`
when the engine returns no array, else `S_OK` with the array stored in the slot.
The absent handle is refused, with `E_NOT_VALID_STATE` and without an engine
call, by `ApplyColorFilter`. -/
theorem engine_wrappers_forward_absent_handle (self : MatlabHelper) (eng : Engine)
    (name expr : String) (v : mxArray) (slot : Option mxArray) (w : World)
    (hEngine : self.m_matlabEngine = none) :
    self.MatlabEvalExpr eng (some expr) w
      = ⟨ConvertMatlabRetCodeToHResult (eng.retCode (w.calls ++ [EngCall.engEvalString none expr])),
         w.call (EngCall.engEvalString none expr)⟩ ∧
    self.MatlabPutVariable eng (some name) (some v) w
      = ⟨ConvertMatlabRetCodeToHResult
           (eng.retCode (w.calls ++ [EngCall.engPutVariable none name v])),
         w.call (EngCall.engPutVariable none name v)⟩ ∧
    self.MatlabGetVariable eng (some name) (some slot) w
      = (match eng.fetched (w.calls ++ [EngCall.engGetVariable none name]) with
         | none => ⟨E_NOT_SET, some slot, w.call (EngCall.engGetVariable none name)⟩
         | some a => ⟨S_OK, some (some a), w.call (EngCall.engGetVariable none name)⟩) ∧
    (∀ (c : Int), ConvertMatlabRetCodeToHResult c = if c = 0 then S_OK else E_FAIL) ∧
    (∀ (IDM_COLOR_GRAYSCALE_THRESHOLD : Int) (pImg : Option mxArray),
      self.ApplyColorFilter eng IDM_COLOR_GRAYSCALE_THRESHOLD pImg w
        = .ok ⟨E_NOT_VALID_STATE, pImg, w⟩) := by
  refine ⟨?_, ?_, ?_, ?_, ?_⟩
  · simp [MatlabHelper.MatlabEvalExpr, hEngine, World.call]
  · simp [MatlabHelper.MatlabPutVariable, hEngine, World.call]
  · simp [MatlabHelper.MatlabGetVariable, hEngine, World.call]
  · intro c
    simp [ConvertMatlabRetCodeToHResult]
  · intro idm pImg
    simp [MatlabHelper.ApplyColorFilter, hEngine, pure, Except.pure]

/-- Instance of the amended C7 on a helper that was never started. -/
theorem engine_wrappers_forward_absent_handle_witness :
    (MatlabHelper.ctor 0).m_matlabEngine = none ∧
    (MatlabHelper.ctor 0).MatlabEvalExpr willingEngine (some "x = 1;") World.initial
      = ⟨S_OK, ⟨[EngCall.engEvalString none "x = 1;"], [], []⟩⟩ ∧
    (MatlabHelper.ctor 0).ApplyColorFilter willingEngine 1 (some rgb2x2) World.initial
      = .ok ⟨E_NOT_VALID_STATE, some rgb2x2, World.initial⟩ := by
  have h := engine_wrappers_forward_absent_handle (MatlabHelper.ctor 0) willingEngine
    "img" "x = 1;" rgb2x2 none World.initial rfl
  refine ⟨rfl, ?_, h.2.2.2.2 1 (some rgb2x2)⟩
  rw [h.1]
  decide

/-- C9: `ShutDownEngine` closes the engine but keeps the handle.  On a helper that
was never started nothing is closed; on a started helper the handle is still
held after the call, and a second call closes the same handle a second time. -/
theorem ShutDownEngine_twice :
    ((MatlabHelper.ctor 0).ShutDownEngine World.initial) = (MatlabHelper.ctor 0, World.initial) ∧
    startedHelper.m_matlabEngine = some 1 ∧
    (startedHelper.ShutDownEngine World.initial).1.m_matlabEngine = some 1 ∧
    (startedHelper.ShutDownEngine World.initial).2.calls = [EngCall.engClose (some 1)] ∧
    ((startedHelper.ShutDownEngine World.initial).1.ShutDownEngine
        (startedHelper.ShutDownEngine World.initial).2).2.calls
      = [EngCall.engClose (some 1), EngCall.engClose (some 1)] := by
  decide

/-! ## The centroid pipeline -/

theorem put_eq (self : MatlabHelper) (eng : Engine) (n : String) (v : mxArray) (w : World) :
    self.MatlabPutVariable eng (some n) (some v) w
      = ⟨engineStepCode eng w.calls (EngCall.engPutVariable self.m_matlabEngine n v),
         ⟨w.calls ++ [EngCall.engPutVariable self.m_matlabEngine n v], w.released,
          w.destroyed⟩⟩ := rfl

theorem eval_eq (self : MatlabHelper) (eng : Engine) (e : String) (w : World) :
    self.MatlabEvalExpr eng (some e) w
      = ⟨engineStepCode eng w.calls (EngCall.engEvalString self.m_matlabEngine e),
         ⟨w.calls ++ [EngCall.engEvalString self.m_matlabEngine e], w.released,
          w.destroyed⟩⟩ := rfl

theorem get_eq (self : MatlabHelper) (eng : Engine) (n : String) (w : World) :
    self.MatlabGetVariable eng (some n) (some none) w
      = ⟨engineStepCode eng w.calls (EngCall.engGetVariable self.m_matlabEngine n),
         some (eng.fetched (w.calls ++ [EngCall.engGetVariable self.m_matlabEngine n])),
         ⟨w.calls ++ [EngCall.engGetVariable self.m_matlabEngine n], w.released,
          w.destroyed⟩⟩ := by
  unfold MatlabHelper.MatlabGetVariable engineStepCode
  cases h : eng.fetched (w.calls ++ [EngCall.engGetVariable self.m_matlabEngine n]) <;>
    simp [h, World.call]

theorem move_total (mem : ArrayStore) (ps pd : Nat) (src dst : mxArray) (w : World)
    (hps : mem ps = some src) (hpd : mem pd = some dst) :
    ∃ m, MoveRgbMxArrayData (some ps) (some pd) mem w = .ok m :=
  ⟨_, move_unfold mem ps pd src dst w hps hpd⟩

theorem fetched_of_code (eng : Engine) (past : List EngCall) (ep : Option Nat) (n : String)
    (h : FAILED (engineStepCode eng past (EngCall.engGetVariable ep n)) = false) :
    ∃ a, eng.fetched (past ++ [EngCall.engGetVariable ep n]) = some a := by
  unfold engineStepCode at h
  cases hf : eng.fetched (past ++ [EngCall.engGetVariable ep n]) with
  | some a => exact ⟨a, rfl⟩
  | none =>
    simp only [hf, Option.isSome_none, Bool.false_eq_true, if_false] at h
    exact absurd h (by decide)

theorem ComputeCentroids_eq_failFast (self : MatlabHelper) (eng : Engine) (img : mxArray)
    (w : World) :
    self.ComputeCentroids eng (some img) w
      = failFast (centroidStepCode eng self.m_matlabEngine img w.calls)
          (fun k => ⟨centroidStepCode eng self.m_matlabEngine img w.calls k, some img,
            ⟨w.calls ++ (centroidCalls self.m_matlabEngine img).take (k + 1),
             w.released, w.destroyed⟩⟩)
          (do
            let m ← MoveRgbMxArrayData
              ((eng.fetched (w.calls ++ (centroidCalls self.m_matlabEngine img).take 7)).map
                (fun _ => fetchedAddr))
              (some callerAddr)
              (pairStore (some img)
                (eng.fetched (w.calls ++ (centroidCalls self.m_matlabEngine img).take 7)))
              ⟨w.calls ++ centroidCalls self.m_matlabEngine img, w.released, w.destroyed⟩
            pure ⟨m.hr, m.arrays callerAddr, mxDestroyArray (m.arrays fetchedAddr) m.world⟩)
          8 0 := by
  unfold MatlabHelper.ComputeCentroids
  simp only [put_eq, eval_eq, get_eq, List.append_assoc, List.singleton_append,
    List.cons_append, List.nil_append, Option.join, Option.some_bind, id_eq,
    failFast, centroidStepCode, centroidCalls, List.take_succ_cons, List.take_zero,
    Option.map_some',
    List.getElem?_cons_zero, List.getElem?_cons_succ, List.append_nil, Nat.zero_add,
    Nat.reduceAdd]

theorem failFast_spec (code : Nat → HRESULT) (res : Nat → FilterResult)
    (final : Except Fault FilterResult) :
    ∀ n k,
      (∃ j, k ≤ j ∧ j < k + n ∧ (∀ i, k ≤ i → i < j → FAILED (code i) = false) ∧
          FAILED (code j) = true ∧ failFast code res final n k = .ok (res j)) ∨
      ((∀ i, k ≤ i → i < k + n → FAILED (code i) = false) ∧
          failFast code res final n k = final) := by
  intro n
  induction n with
  | zero =>
    intro k
    exact Or.inr ⟨fun i h1 h2 => absurd h2 (by omega), rfl⟩
  | succ n ih =>
    intro k
    by_cases h : FAILED (code k) = true
    · refine Or.inl ⟨k, Nat.le_refl _, by omega, fun i h1 h2 => absurd h2 (by omega), h, ?_⟩
      rw [failFast, if_pos h]
      rfl
    · have hk : FAILED (code k) = false := by simpa using h
      rcases ih (k + 1) with ⟨j, hj1, hj2, hprev, hfail, heq⟩ | ⟨hall, heq⟩
      · refine Or.inl ⟨j, by omega, by omega, ?_, hfail, ?_⟩
        · intro i h1 h2
          by_cases hik : i = k
          · rw [hik]; exact hk
          · exact hprev i (by omega) h2
        · rw [failFast, if_neg h]
          exact heq
      · refine Or.inr ⟨?_, ?_⟩
        · intro i h1 h2
          by_cases hik : i = k
          · rw [hik]; exact hk
          · exact hall i (by omega) (by omega)
        · rw [failFast, if_neg h]
          exact heq

theorem mxDestroyArray_calls (pa : Option mxArray) (w : World) :
    (mxDestroyArray pa w).calls = w.calls := by
  cases pa with
  | none => rfl
  | some a => cases h : a.data <;> simp [mxDestroyArray, mxFree, h]

theorem move_frame (mem : ArrayStore) (ps pd : Nat) (src dst : mxArray) (w : World)
    (m : MoveResult) (hps : mem ps = some src) (hpd : mem pd = some dst)
    (h : MoveRgbMxArrayData (some ps) (some pd) mem w = .ok m) :
    m.world.calls = w.calls ∧ (FAILED m.hr = true → m.arrays = mem) := by
  rw [move_unfold mem ps pd src dst w hps hpd] at h
  have hm := Except.ok.inj h
  subst hm
  split
  · exact ⟨rfl, fun _ => rfl⟩
  · refine ⟨?_, fun hf => ?_⟩
    · show (mxFree dst.data w).calls = w.calls
      cases dst.data <;> rfl
    · have hf2 : FAILED S_OK = true := hf
      exact absurd hf2 (by decide)

/-- C5: for every engine, `ComputeCentroids` on a present image returns; the
engine calls it issues are an initial segment of the fixed list (put `img`,
five evaluations, fetch `filteredImg`, fetch `finalCentroids`); if step `k` is
the first engine step whose code fails, that code is returned, the calls
issued are exactly the steps up to `k`, and the caller's image and the heap are
as before; if no engine step fails, all eight calls are issued, the fetched
image is moved into the caller's image, the code of the move is returned, and
the caller's image is unchanged when the move fails. -/
theorem ComputeCentroids_fail_fast (self : MatlabHelper) (eng : Engine) (img : mxArray)
    (w : World) :
    ∃ r, self.ComputeCentroids eng (some img) w = .ok r ∧
      (∃ n, n ≤ 8 ∧
        r.world.calls = w.calls ++ (centroidCalls self.m_matlabEngine img).take n) ∧
      (∀ k, k < 8 →
        (∀ i, i < k → FAILED (centroidStepCode eng self.m_matlabEngine img w.calls i) = false) →
        FAILED (centroidStepCode eng self.m_matlabEngine img w.calls k) = true →
          r.hr = centroidStepCode eng self.m_matlabEngine img w.calls k ∧
          r.world.calls = w.calls ++ (centroidCalls self.m_matlabEngine img).take (k + 1) ∧
          r.img = some img ∧ r.world.released = w.released ∧
          r.world.destroyed = w.destroyed) ∧
      ((∀ i, i < 8 →
          FAILED (centroidStepCode eng self.m_matlabEngine img w.calls i) = false) →
        ∃ filtered m,
          eng.fetched (w.calls ++ (centroidCalls self.m_matlabEngine img).take 7)
            = some filtered ∧
          MoveRgbMxArrayData (some fetchedAddr) (some callerAddr)
            (pairStore (some img) (some filtered))
            ⟨w.calls ++ centroidCalls self.m_matlabEngine img, w.released, w.destroyed⟩
            = .ok m ∧
          r.hr = m.hr ∧ r.img = m.arrays callerAddr ∧
          r.world.calls = w.calls ++ centroidCalls self.m_matlabEngine img ∧
          (FAILED m.hr = true → r.img = some img)) := by
  rw [ComputeCentroids_eq_failFast]
  rcases failFast_spec (centroidStepCode eng self.m_matlabEngine img w.calls)
      (fun k => ⟨centroidStepCode eng self.m_matlabEngine img w.calls k, some img,
        ⟨w.calls ++ (centroidCalls self.m_matlabEngine img).take (k + 1),
         w.released, w.destroyed⟩⟩)
      (do
        let m ← MoveRgbMxArrayData
          ((eng.fetched (w.calls ++ (centroidCalls self.m_matlabEngine img).take 7)).map
            (fun _ => fetchedAddr))
          (some callerAddr)
          (pairStore (some img)
            (eng.fetched (w.calls ++ (centroidCalls self.m_matlabEngine img).take 7)))
          ⟨w.calls ++ centroidCalls self.m_matlabEngine img, w.released, w.destroyed⟩
        pure ⟨m.hr, m.arrays callerAddr, mxDestroyArray (m.arrays fetchedAddr) m.world⟩)
      8 0 with ⟨j, _, hj, hprev, hfail, heq⟩ | ⟨hall, heq⟩
  · refine ⟨_, heq, ⟨j + 1, by omega, rfl⟩, ?_, ?_⟩
    · intro k hk hp hf
      have hkj : k = j := by
        rcases Nat.lt_trichotomy k j with hlt | heq2 | hgt
        · have := hprev k (Nat.zero_le _) hlt
          rw [this] at hf
          exact absurd hf (by decide)
        · exact heq2
        · have := hp j hgt
          rw [this] at hfail
          exact absurd hfail (by decide)
      subst hkj
      exact ⟨rfl, rfl, rfl, rfl, rfl⟩
    · intro hall
      have := hall j (by omega)
      rw [this] at hfail
      exact absurd hfail (by decide)
  · have h6 := hall 6 (Nat.zero_le _) (by omega)
    obtain ⟨filtered, hfetch⟩ := fetched_of_code eng
      (w.calls ++ (centroidCalls self.m_matlabEngine img).take 6) self.m_matlabEngine
      "filteredImg" h6
    have hfetch7 : eng.fetched (w.calls ++ (centroidCalls self.m_matlabEngine img).take 7)
        = some filtered := by
      rw [← hfetch]
      simp [centroidCalls]
    obtain ⟨m, hm⟩ := move_total (pairStore (some img) (some filtered)) fetchedAddr callerAddr
      filtered img
      ⟨w.calls ++ centroidCalls self.m_matlabEngine img, w.released, w.destroyed⟩ rfl rfl
    obtain ⟨hcalls, hdest⟩ := move_frame _ _ _ _ _ _ _ rfl rfl hm
    have hfinal : (do
        let m ← MoveRgbMxArrayData
          ((eng.fetched (w.calls ++ (centroidCalls self.m_matlabEngine img).take 7)).map
            (fun _ => fetchedAddr))
          (some callerAddr)
          (pairStore (some img)
            (eng.fetched (w.calls ++ (centroidCalls self.m_matlabEngine img).take 7)))
          ⟨w.calls ++ centroidCalls self.m_matlabEngine img, w.released, w.destroyed⟩
        pure (⟨m.hr, m.arrays callerAddr,
          mxDestroyArray (m.arrays fetchedAddr) m.world⟩ : FilterResult))
        = Except.ok ⟨m.hr, m.arrays callerAddr,
            mxDestroyArray (m.arrays fetchedAddr) m.world⟩ := by
      rw [hfetch7]
      show (MoveRgbMxArrayData (some fetchedAddr) (some callerAddr) _ _ >>= _) = _
      rw [hm]
      rfl
    refine ⟨_, heq.trans hfinal, ⟨8, Nat.le_refl _, ?_⟩, ?_, ?_⟩
    · show (mxDestroyArray (m.arrays fetchedAddr) m.world).calls = _
      rw [mxDestroyArray_calls, hcalls]
      simp [centroidCalls]
    · intro k hk _ hf
      have := hall k (Nat.zero_le _) (by omega)
      rw [this] at hf
      exact absurd hf (by decide)
    · intro _
      refine ⟨filtered, m, hfetch7, hm, rfl, rfl, ?_, ?_⟩
      · show (mxDestroyArray (m.arrays fetchedAddr) m.world).calls = _
        rw [mxDestroyArray_calls, hcalls]
      · intro hf
        show m.arrays callerAddr = some img
        rw [hdest hf]
        rfl

/-- Instance of C5: with an engine that rejects the third call, the pipeline
returns `E_FAIL` after put `img` and two evaluations, and the image is as
before. -/
theorem ComputeCentroids_fail_fast_witness :
    ∃ r, startedHelper.ComputeCentroids thirdCallFails (some rgb2x2) World.initial = .ok r ∧
      r.hr = E_FAIL ∧
      r.world.calls = [EngCall.engPutVariable (some 1) "img" rgb2x2,
        EngCall.engEvalString (some 1) c_removeBackgroundExpr,
        EngCall.engEvalString (some 1) c_findTableExpr] ∧
      r.img = some rgb2x2 := by
  obtain ⟨r, hr, _, h2, _⟩ :=
    ComputeCentroids_fail_fast startedHelper thirdCallFails rgb2x2 World.initial
  obtain ⟨a, b, c, _⟩ := h2 2 (by decide) (by decide) (by decide)
  exact ⟨r, hr, a.trans (by decide), b.trans rfl, c⟩

/-! ## Conversion: the bitmap layout -/

theorem wrap32_eq_cast (z : Int) (n : Nat) (hz : z = (n : Int)) (hn : n < 2147483648) :
    wrap32 z = (n : Int) := by
  subst hz
  unfold wrap32
  omega

theorem readByte_natCast (buf : Buffer) (n b : Nat) (h : buf.bytes[n]? = some b) :
    readByte (some buf) (n : Int) = .ok b := by
  simp [readByte, deref, h, bind, Except.bind, pure, Except.pure]

theorem writeByte_natCast (bits : List Nat) (n v : Nat) (h : n < bits.length) :
    writeByte bits (n : Int) v = .ok (bits.set n v) := by
  simp [writeByte, h, pure, Except.pure]

theorem pixel_index_lt (h w y x : Nat) (hy : y < h) (hx : x < w) : x + y * w < h * w := by
  have h1 : (y + 1) * w ≤ h * w := Nat.mul_le_mul_right w hy
  rw [Nat.add_mul, Nat.one_mul] at h1
  omega

theorem length_writePixel (bits : List Nat) (p b g r : Nat) :
    (writePixel bits p b g r).length = bits.length := by
  simp [writePixel]

theorem writePixel_frame (bits : List Nat) (p b g r i : Nat) (hi : i < p * 4 ∨ p * 4 + 4 ≤ i) :
    (writePixel bits p b g r)[i]? = bits[i]? := by
  unfold writePixel
  rw [List.getElem?_set_ne (by omega), List.getElem?_set_ne (by omega),
    List.getElem?_set_ne (by omega), List.getElem?_set_ne (by omega)]

theorem writePixel_self (bits : List Nat) (p b g r : Nat) (hp : p * 4 + 3 < bits.length) :
    (writePixel bits p b g r)[p * 4]? = some b ∧
    (writePixel bits p b g r)[p * 4 + 1]? = some g ∧
    (writePixel bits p b g r)[p * 4 + 2]? = some r ∧
    (writePixel bits p b g r)[p * 4 + 3]? = some 0 := by
  unfold writePixel
  refine ⟨?_, ?_, ?_, ?_⟩
  · rw [List.getElem?_set_ne (by omega), List.getElem?_set_ne (by omega),
      List.getElem?_set_ne (by omega), List.getElem?_set_self (by omega)]
  · rw [List.getElem?_set_ne (by omega), List.getElem?_set_ne (by omega),
      List.getElem?_set_self (by simp; omega)]
  · rw [List.getElem?_set_ne (by omega), List.getElem?_set_self (by simp; omega)]
  · rw [List.getElem?_set_self (by simp; omega)]

theorem pixel_offset_eq (h w y x : Nat) (hy : y < h) (hx : x < w)
    (hInt : h * w * 4 < 2147483648) :
    wrap32 (wrap32 ((x : Int) + wrap32 ((y : Int) * (w : Int))) * 4)
      = (((x + y * w) * 4 : Nat) : Int) := by
  have hp := pixel_index_lt h w y x hy hx
  have b1 : y * w < 2147483648 := by omega
  have b2 : x + y * w < 2147483648 := by omega
  have b3 : (x + y * w) * 4 < 2147483648 := by omega
  rw [wrap32_eq_cast ((y : Int) * (w : Int)) (y * w) (by push_cast; rfl) b1,
    wrap32_eq_cast ((x : Int) + ((y * w : Nat) : Int)) (x + y * w) (by push_cast; rfl) b2,
    wrap32_eq_cast (((x + y * w : Nat) : Int) * 4) ((x + y * w) * 4) (by push_cast; rfl) b3]

theorem source_offset_eq (h w y x : Nat) (hy : y < h) (hx : x < w)
    (hInt : h * w * 4 < 2147483648) :
    (y : Int) + wrap32 ((x : Int) * (h : Int)) = ((y + x * h : Nat) : Int) ∧
    (y : Int) + wrap32 ((x : Int) * (h : Int)) + wrap32 ((w : Int) * (h : Int))
      = ((y + x * h + w * h : Nat) : Int) ∧
    (y : Int) + wrap32 ((x : Int) * (h : Int)) + wrap32 (wrap32 (2 * (w : Int)) * (h : Int))
      = ((y + x * h + 2 * w * h : Nat) : Int) := by
  have hs := pixel_index_lt w h x y hx hy
  have hwh : w * h = h * w := Nat.mul_comm _ _
  have h2 : 2 * w * h = 2 * (h * w) := by rw [Nat.mul_assoc, hwh]
  have hw1 : w ≤ h * w := Nat.le_mul_of_pos_left w (by omega)
  have b1 : x * h < 2147483648 := by omega
  have b2 : w * h < 2147483648 := by omega
  have b3 : 2 * w < 2147483648 := by omega
  have b4 : 2 * w * h < 2147483648 := by omega
  rw [wrap32_eq_cast ((x : Int) * (h : Int)) (x * h) (by push_cast; rfl) b1,
    wrap32_eq_cast ((w : Int) * (h : Int)) (w * h) (by push_cast; rfl) b2,
    wrap32_eq_cast (2 * (w : Int)) (2 * w) (by push_cast; rfl) b3,
    wrap32_eq_cast (((2 * w : Nat) : Int) * (h : Int)) (2 * w * h) (by push_cast; rfl) b4]
  refine ⟨?_, ?_, ?_⟩ <;> push_cast <;> rfl

theorem source_index_lt (h w y x : Nat) (hy : y < h) (hx : x < w) :
    y + x * h < h * w ∧ w * h = h * w ∧ 2 * w * h = 2 * (h * w) := by
  have hs := pixel_index_lt w h x y hx hy
  have hwh : w * h = h * w := Nat.mul_comm _ _
  have h2 : 2 * w * h = 2 * (h * w) := by rw [Nat.mul_assoc, hwh]
  omega

theorem convertPixel_eq (buf : Buffer) (h w y x : Nat) (bits : List Nat)
    (hy : y < h) (hx : x < w) (hInt : h * w * 4 < 2147483648)
    (hData : buf.bytes.length = h * w * 3) (hBits : bits.length = h * w * 4) :
    ∃ r g b, buf.bytes[y + x * h]? = some r ∧ buf.bytes[y + x * h + w * h]? = some g ∧
      buf.bytes[y + x * h + 2 * w * h]? = some b ∧
      convertPixel (some buf) h w y x bits = .ok (writePixel bits (x + y * w) b g r) := by
  have hp := pixel_index_lt h w y x hy hx
  obtain ⟨hs, hwh, h2⟩ := source_index_lt h w y x hy hx
  have hr : y + x * h < buf.bytes.length := by omega
  have hg : y + x * h + w * h < buf.bytes.length := by omega
  have hb : y + x * h + 2 * w * h < buf.bytes.length := by omega
  have hw0 : (x + y * w) * 4 < bits.length := by omega
  have hw1 : (x + y * w) * 4 + 1 < bits.length := by omega
  have hw2 : (x + y * w) * 4 + 2 < bits.length := by omega
  have hw3 : (x + y * w) * 4 + 3 < bits.length := by omega
  refine ⟨buf.bytes[y + x * h], buf.bytes[y + x * h + w * h], buf.bytes[y + x * h + 2 * w * h],
    List.getElem?_eq_getElem hr, List.getElem?_eq_getElem hg, List.getElem?_eq_getElem hb, ?_⟩
  obtain ⟨o3, o2, o1⟩ := source_offset_eq h w y x hy hx hInt
  have p1 : ((((x + y * w) * 4 : Nat) : Int) + 1) = (((x + y * w) * 4 + 1 : Nat) : Int) := by
    push_cast; rfl
  have p2 : ((((x + y * w) * 4 : Nat) : Int) + 2) = (((x + y * w) * 4 + 2 : Nat) : Int) := by
    push_cast; rfl
  have p3 : ((((x + y * w) * 4 : Nat) : Int) + 3) = (((x + y * w) * 4 + 3 : Nat) : Int) := by
    push_cast; rfl
  unfold convertPixel
  simp only [PIXEL_BYTE_SIZE]
  rw [pixel_offset_eq h w y x hy hx hInt, o1, o2, o3, p1, p2, p3,
    readByte_natCast buf _ _ (List.getElem?_eq_getElem hb),
    readByte_natCast buf _ _ (List.getElem?_eq_getElem hg),
    readByte_natCast buf _ _ (List.getElem?_eq_getElem hr)]
  simp only [bind, Except.bind]
  rw [writeByte_natCast _ _ _ hw0]
  simp only []
  rw [writeByte_natCast _ _ _ (by simpa using hw1)]
  simp only []
  rw [writeByte_natCast _ _ _ (by simpa using hw2)]
  simp only []
  rw [writeByte_natCast _ _ _ (by simpa using hw3)]
  rfl

theorem PixelDone_of_agree (buf : Buffer) (h w : Nat) (bits out : List Nat) (y x : Nat)
    (hd : PixelDone buf h w bits y x)
    (hag : ∀ i, (x + y * w) * 4 ≤ i → i < (x + y * w) * 4 + 4 → out[i]? = bits[i]?) :
    PixelDone buf h w out y x := by
  obtain ⟨r, g, b, hr, hg, hb, h0, h1, h2, h3⟩ := hd
  refine ⟨r, g, b, hr, hg, hb, ?_, ?_, ?_, ?_⟩
  · rw [hag _ (by omega) (by omega)]; exact h0
  · rw [hag _ (by omega) (by omega)]; exact h1
  · rw [hag _ (by omega) (by omega)]; exact h2
  · rw [hag _ (by omega) (by omega)]; exact h3

theorem convertRow_spec (buf : Buffer) (h w y : Nat) (hy : y < h)
    (hInt : h * w * 4 < 2147483648) (hData : buf.bytes.length = h * w * 3) :
    ∀ n, n ≤ w → ∀ bits : List Nat, bits.length = h * w * 4 →
      ∃ out, convertRow (some buf) h w y n bits = .ok out ∧ out.length = h * w * 4 ∧
        (∀ i, i < (y * w) * 4 ∨ (n + y * w) * 4 ≤ i → out[i]? = bits[i]?) ∧
        ∀ x, x < n → PixelDone buf h w out y x := by
  intro n
  induction n with
  | zero =>
    intro _ bits hb
    exact ⟨bits, rfl, hb, fun _ _ => rfl, fun x hx => absurd hx (Nat.not_lt_zero _)⟩
  | succ n ih =>
    intro hn bits hb
    obtain ⟨mid, hmid, hlen, hframe, hdone⟩ := ih (by omega) bits hb
    obtain ⟨r, g, b, hr, hg, hbl, hpx⟩ :=
      convertPixel_eq buf h w y n mid hy (by omega) hInt hData hlen
    have hp := pixel_index_lt h w y n hy (by omega)
    refine ⟨writePixel mid (n + y * w) b g r, ?_, ?_, ?_, ?_⟩
    · simp only [convertRow, bind, Except.bind, hmid]
      exact hpx
    · rw [length_writePixel]
      exact hlen
    · intro i hi
      rw [writePixel_frame _ _ _ _ _ _ (by omega)]
      exact hframe i (by omega)
    · intro x hx
      by_cases hxn : x = n
      · subst hxn
        obtain ⟨s0, s1, s2, s3⟩ := writePixel_self mid (x + y * w) b g r (by omega)
        exact ⟨r, g, b, hr, hg, hbl, s0, s1, s2, s3⟩
      · refine PixelDone_of_agree buf h w mid _ y x (hdone x (by omega)) ?_
        intro i h1 h2
        exact writePixel_frame _ _ _ _ _ _ (by omega)

theorem convertRows_spec (buf : Buffer) (h w : Nat)
    (hInt : h * w * 4 < 2147483648) (hData : buf.bytes.length = h * w * 3) :
    ∀ n, n ≤ h → ∀ bits : List Nat, bits.length = h * w * 4 →
      ∃ out, convertRows (some buf) h w n bits = .ok out ∧ out.length = h * w * 4 ∧
        ∀ y, y < n → ∀ x, x < w → PixelDone buf h w out y x := by
  intro n
  induction n with
  | zero =>
    intro _ bits hb
    exact ⟨bits, rfl, hb, fun y hy => absurd hy (Nat.not_lt_zero _)⟩
  | succ n ih =>
    intro hn bits hb
    obtain ⟨mid, hmid, hlen, hdone⟩ := ih (by omega) bits hb
    obtain ⟨out, hout, holen, hframe, hrow⟩ :=
      convertRow_spec buf h w n (by omega) hInt hData w (Nat.le_refl _) mid hlen
    refine ⟨out, ?_, holen, ?_⟩
    · simp only [convertRows, bind, Except.bind, hmid, Int.toNat_natCast]
      exact hout
    · intro y hy x hx
      by_cases hyn : y = n
      · subst hyn
        exact hrow x hx
      · have hp := pixel_index_lt n w y x (by omega) hx
        refine PixelDone_of_agree buf h w mid out y x (hdone y (by omega) x hx) ?_
        intro i h1 h2
        exact hframe i (by omega)

theorem validate_present (a : mxArray) :
    ValidateMxArrayRgbImage (some a)
      = .ok (if mxIsEmpty a || !mxIsUint8 a || mxGetNumberOfDimensions a != RGB_DIMENSIONS
             then E_INVALIDARG else S_OK) := by
  simp [ValidateMxArrayRgbImage, deref, pure, Except.pure, bind, Except.bind]

theorem extents_of_valid (img : mxArray) (h w : Nat) (hDims : img.dims = [h, w, 3])
    (hValid : ValidateMxArrayRgbImage (some img) = .ok S_OK) : 0 < h ∧ 0 < w := by
  rw [validate_present] at hValid
  by_cases hc : (mxIsEmpty img || !mxIsUint8 img ||
      mxGetNumberOfDimensions img != RGB_DIMENSIONS) = true
  · rw [if_pos hc] at hValid
    exact absurd (Except.ok.inj hValid) (by decide)
  · simp only [Bool.or_eq_true, not_or, mxIsEmpty, hDims] at hc
    have h1 := hc.1.1
    simp at h1
    omega

/-- C1, amended with the `int` range and the outcome of the allocation: for an
image that validation accepts, with extents `[h, w, 3]`, a data block of
`h*w*3` bytes and `h*w*4 < 2^31`, any output slot and a header with
`biHeight = -h`, `biWidth = w`: when the allocation of the `h*w*4` bytes
succeeds, the conversion returns `S_OK` and stores a block of `h*w*4` bytes in
which, for every row `y < h` and column `x < w`, the four bytes from offset
`(x + y*w)*4` are blue, green, red (the source bytes at `y + x*h + 2*w*h`,
`y + x*h + w*h`, `y + x*h`) and 0; when the allocation yields `NULL`, the
conversion returns `E_OUTOFMEMORY` with `NULL` in the slot; when the allocation
throws, so does the conversion. -/
theorem ConvertRgbMxArrayToBitmap_layout (img : mxArray) (h w : Nat) (buf : Buffer)
    (slot : Option (List Nat)) (info : BITMAPINFO) (heap : Nat → Allocation)
    (hValid : ValidateMxArrayRgbImage (some img) = .ok S_OK)
    (hDims : img.dims = [h, w, 3])
    (hData : img.data = some buf ∧ buf.bytes.length = h * w * 3)
    (hHeight : info.bmiHeader.biHeight = -(h : Int))
    (hWidth : info.bmiHeader.biWidth = (w : Int))
    (hInt : h * w * 4 < 2147483648) :
    (∀ fresh, heap (h * w * 4) = Allocation.block fresh →
      ∃ bits, ConvertRgbMxArrayToBitmap (some img) (some slot) (some info) heap
          = .ok ⟨S_OK, some (some bits)⟩ ∧
        bits.length = h * w * 4 ∧
        ∀ y x, y < h → x < w →
          ∃ r g b, buf.bytes[y + x * h]? = some r ∧ buf.bytes[y + x * h + w * h]? = some g ∧
            buf.bytes[y + x * h + 2 * w * h]? = some b ∧
            bits[(x + y * w) * 4]? = some b ∧ bits[(x + y * w) * 4 + 1]? = some g ∧
            bits[(x + y * w) * 4 + 2]? = some r ∧ bits[(x + y * w) * 4 + 3]? = some 0) ∧
    (heap (h * w * 4) = Allocation.null →
      ConvertRgbMxArrayToBitmap (some img) (some slot) (some info) heap
        = .ok ⟨E_OUTOFMEMORY, some none⟩) ∧
    (heap (h * w * 4) = Allocation.badAlloc →
      ConvertRgbMxArrayToBitmap (some img) (some slot) (some info) heap
        = .error Fault.badAlloc) := by
  obtain ⟨hh, hw⟩ := extents_of_valid img h w hDims hValid
  have hle1 : h ≤ h * w := Nat.le_mul_of_pos_right h hw
  have hle2 : w ≤ h * w := Nat.le_mul_of_pos_left w hh
  have bh : h < 2147483648 := by omega
  have bw : w < 2147483648 := by omega
  have bhw : h * w < 2147483648 := by omega
  have eh : wrap32 (h : Int) = (h : Int) := wrap32_eq_cast _ _ rfl bh
  have ew : wrap32 (w : Int) = (w : Int) := wrap32_eq_cast _ _ rfl bw
  have ehw : wrap32 ((h : Int) * (w : Int)) = ((h * w : Nat) : Int) :=
    wrap32_eq_cast _ _ (by push_cast; rfl) bhw
  have ehw4 : wrap32 (((h * w : Nat) : Int) * 4) = ((h * w * 4 : Nat) : Int) :=
    wrap32_eq_cast _ _ (by push_cast; rfl) hInt
  have ehw5 : wrap32 (((h * w : Nat) : Int) * PIXEL_BYTE_SIZE) = ((h * w * 4 : Nat) : Int) :=
    ehw4
  have hcount : ¬ (((h * w * 4 : Nat) : Int) < 0) := by omega
  have bind_ok : ∀ {α β : Type} (a : α) (f : α → Except Fault β),
      (Except.ok a >>= f) = f a := fun _ _ => rfl
  have deref_some : ∀ {α : Type} (a : α), deref (some a) = Except.ok a := fun _ => rfl
  have ext0 : readExtent [h, w, 3] 0 = Except.ok h := rfl
  have ext1 : readExtent [h, w, 3] 1 = Except.ok w := rfl
  refine ⟨?_, ?_, ?_⟩
  · intro fresh hAlloc
    obtain ⟨bits, hbits, hlen, hdone⟩ :=
      convertRows_spec buf h w hInt hData.2 h (Nat.le_refl _)
        ((List.range (h * w * 4)).map fresh) (by simp)
    refine ⟨bits, ?_, hlen, fun y x hy hx => hdone y hy x hx⟩
    have hnew : operatorNew (((h * w * 4 : Nat) : Int)) heap
        = Except.ok (some ((List.range (h * w * 4)).map fresh)) := by
      unfold operatorNew
      rw [if_neg hcount, Int.toNat_natCast, hAlloc]
      rfl
    unfold ConvertRgbMxArrayToBitmap
    show (ValidateMxArrayRgbImage (some img) >>= _) = _
    rw [hValid, bind_ok, if_neg (by decide), deref_some, bind_ok, hDims, ext0, bind_ok, ext1,
      bind_ok, deref_some, bind_ok, eh, ew, hHeight, neg_neg, eh, hWidth, if_neg (by simp),
      ehw, ehw5, Int.toNat_natCast, hData.1]
    rw [hnew, bind_ok]
    show (convertRows (some buf) (h : Int) (w : Int) h _ >>= _) = _
    rw [hbits, bind_ok]
    rfl
  · intro hAlloc
    have hnew : operatorNew (((h * w * 4 : Nat) : Int)) heap = Except.ok none := by
      unfold operatorNew
      rw [if_neg hcount, Int.toNat_natCast, hAlloc]
      rfl
    unfold ConvertRgbMxArrayToBitmap
    show (ValidateMxArrayRgbImage (some img) >>= _) = _
    rw [hValid, bind_ok, if_neg (by decide), deref_some, bind_ok, hDims, ext0, bind_ok, ext1,
      bind_ok, deref_some, bind_ok, eh, ew, hHeight, neg_neg, eh, hWidth, if_neg (by simp),
      ehw, ehw5, Int.toNat_natCast, hData.1]
    rw [hnew, bind_ok]
    rfl
  · intro hAlloc
    have hnew : operatorNew (((h * w * 4 : Nat) : Int)) heap
        = Except.error Fault.badAlloc := by
      unfold operatorNew
      rw [if_neg hcount, Int.toNat_natCast, hAlloc]
      rfl
    unfold ConvertRgbMxArrayToBitmap
    show (ValidateMxArrayRgbImage (some img) >>= _) = _
    rw [hValid, bind_ok, if_neg (by decide), deref_some, bind_ok, hDims, ext0, bind_ok, ext1,
      bind_ok, deref_some, bind_ok, eh, ew, hHeight, neg_neg, eh, hWidth, if_neg (by simp),
      ehw, ehw5, Int.toNat_natCast, hData.1]
    rw [hnew]
    rfl

/-- Instance of the amended C1: with an allocator that grants the request, the
2x2 image of the spec gives `[9, 5, 1, 0]` at pixel `(x, y) = (0, 0)` and
`[12, 8, 4, 0]` at pixel `(1, 1)`. -/
theorem ConvertRgbMxArrayToBitmap_layout_witness :
    ∃ bits, ConvertRgbMxArrayToBitmap (some rgb2x2) (some none) (some header2x2) plentifulHeap
        = .ok ⟨S_OK, some (some bits)⟩ ∧
      bits.length = 16 ∧
      bits[0]? = some 9 ∧ bits[1]? = some 5 ∧ bits[2]? = some 1 ∧ bits[3]? = some 0 ∧
      bits[12]? = some 12 ∧ bits[13]? = some 8 ∧ bits[14]? = some 4 ∧ bits[15]? = some 0 := by
  obtain ⟨bits, hc, hl, hp⟩ := (ConvertRgbMxArrayToBitmap_layout rgb2x2 2 2
    ⟨4096, [1, 3, 2, 4, 5, 7, 6, 8, 9, 11, 10, 12]⟩ none header2x2 plentifulHeap
    (by decide) rfl ⟨rfl, rfl⟩ rfl rfl (by decide)).1 (fun _ => 0) rfl
  obtain ⟨r, g, b, hr, hg, hb, h0, h1, h2, h3⟩ := hp 0 0 (by decide) (by decide)
  obtain ⟨r1, g1, b1, hr1, hg1, hb1, k0, k1, k2, k3⟩ := hp 1 1 (by decide) (by decide)
  simp at hr hg hb hr1 hg1 hb1
  subst hr hg hb hr1 hg1 hb1
  exact ⟨bits, hc, hl, h0, h1, h2, h3, k0, k1, k2, k3⟩

/-! ## Conversion: inputs on which the stated properties fail -/

/-- C10: validation accepts a 1x1 array with two planes; the conversion then
reads the blue byte at offset `0 + 0*1 + 2*1*1 = 2` of a block of 2 bytes, which
is out of bounds. -/
theorem ConvertRgbMxArrayToBitmap_two_planes :
    ValidateMxArrayRgbImage (some twoPlanes) = .ok S_OK ∧
    (twoPlanes.data.map (fun b => b.bytes.length)) = some (1 * 1 * 2) ∧
    readByte twoPlanes.data (0 + 0 * 1 + 2 * 1 * 1) = .error Fault.outOfBounds ∧
    ConvertRgbMxArrayToBitmap (some twoPlanes) (some none) (some ⟨⟨1, -1⟩⟩) plentifulHeap
      = .error Fault.outOfBounds := by
  decide

/-- C1, as stated, fails in two ways.  For the 32768 x 16384 colour image, whose
data block holds its `h*w*3` bytes and which validation accepts, and the
matching header, `height * width * 4` is `2^31` and wraps to a negative `int`:
`new BYTE[...]` throws, whatever the allocator would grant, and no code is
returned.  For the 2x2 image of the spec and an allocator that answers `NULL`,
the conversion returns `E_OUTOFMEMORY`, not `S_OK`. -/
theorem ConvertRgbMxArrayToBitmap_huge :
    ValidateMxArrayRgbImage (some hugeImage) = .ok S_OK ∧
    hugeImage.dims = [32768, 16384, 3] ∧
    hugeImage.data.map (fun b => b.bytes.length) = some (32768 * 16384 * 3) ∧
    wrap32 (wrap32 (32768 * 16384) * PIXEL_BYTE_SIZE) = -2147483648 ∧
    ConvertRgbMxArrayToBitmap (some hugeImage) (some none) (some ⟨⟨16384, -32768⟩⟩)
        plentifulHeap
      = .error Fault.badAlloc ∧
    ValidateMxArrayRgbImage (some rgb2x2) = .ok S_OK ∧
    ConvertRgbMxArrayToBitmap (some rgb2x2) (some none) (some header2x2) exhaustedHeap
      = .ok ⟨E_OUTOFMEMORY, some none⟩ ∧
    E_OUTOFMEMORY ≠ S_OK := by
  exact ⟨by decide, rfl, congrArg some (List.length_replicate _ _), by decide, by decide,
    by decide, by decide, by decide⟩

end BlockDetection
